import Mathlib

/-
Verification of the Template Analysis Pipeline of the chemo-fdb repository
(single source file: chemo-streamlit-app.py).

The source manipulates duck-typed JSON dictionaries throughout, so the
embedding is built on a small JSON value type together with helper
functions mirroring the Python operations the source performs
(`d[k]`, `d.get(k, default)`, `k in d`, `len`, `x[0]`, `int(...)`,
truthiness).  Python exceptions (KeyError, TypeError, ...) surface as
`Except.error`.  External collaborators (the FDB drug-knowledge HTTP
service, the completion model, json.loads) are passed in as explicit
function parameters.
-/

set_option maxHeartbeats 1000000

namespace ChemoFdb

/-- Minimal model of a parsed JSON value (Python dict/list/str/num/bool/None
as produced by json.loads and response.json()).  Numbers are modelled as
integers; object fields are an ordered association list with unique keys,
as in a Python dict. -/
inductive Json : Type where
  | null : Json
  | bool : Bool → Json
  | num : Int → Json
  | str : String → Json
  | arr : List Json → Json
  | obj : List (String × Json) → Json

mutual
/-- Structural equality of JSON values (Python `==` on parsed JSON data). -/
def Json.beq : Json → Json → Bool
  | .null, .null => true
  | .bool a, .bool b => a == b
  | .num a, .num b => a == b
  | .str a, .str b => a == b
  | .arr a, .arr b => Json.beqArr a b
  | .obj a, .obj b => Json.beqObj a b
  | _, _ => false
def Json.beqArr : List Json → List Json → Bool
  | [], [] => true
  | x :: xs, y :: ys => Json.beq x y && Json.beqArr xs ys
  | _, _ => false
def Json.beqObj : List (String × Json) → List (String × Json) → Bool
  | [], [] => true
  | (k, v) :: xs, (k2, v2) :: ys => k == k2 && Json.beq v v2 && Json.beqObj xs ys
  | _, _ => false
end

/-- Lookup of a string key in an association list (a Python dict has unique
keys, so first match is the binding). -/
def alookup {β : Type} : List (String × β) → String → Option β
  | [], _ => none
  | (k, v) :: rest, key => if k = key then some v else alookup rest key

/-- Python truthiness (`if not regimen_data`, `if pdf_text`). -/
def Json.falsy : Json → Bool
  | .null => true
  | .bool b => !b
  | .num n => n == 0
  | .str s => s == ""
  | .arr xs => xs.isEmpty
  | .obj fs => fs.isEmpty

/-- Python `d[key]` for a string key: KeyError when missing, TypeError when
the value is not a dictionary. -/
def pyGetItem : Json → String → Except String Json
  | .obj fs, key =>
    match alookup fs key with
    | some v => .ok v
    | none => .error ("KeyError: " ++ key)
  | _, key => .error ("TypeError: value not subscriptable at key " ++ key)

/-- Python `d.get(key, default)`: requires a dictionary (AttributeError
otherwise). -/
def pyGetDefault : Json → String → Json → Except String Json
  | .obj fs, key, dflt => .ok ((alookup fs key).getD dflt)
  | _, key, _ => .error ("AttributeError: no attribute get, key " ++ key)

/-- Whether the string `pat` occurs as a substring of `s`. -/
def strContains (s pat : String) : Bool := (s.splitOn pat).length ≥ 2

/-- Python `key in v` for a string key: dict key test, list membership,
substring test on strings; TypeError on other values. -/
def pyInKey (key : String) : Json → Except String Bool
  | .obj fs => .ok ((alookup fs key).isSome)
  | .arr xs => .ok (xs.any (fun j => Json.beq j (.str key)))
  | .str s => .ok (strContains s key)
  | _ => .error "TypeError: argument not iterable"

/-- Python `len(v)`. -/
def pyLen : Json → Except String Nat
  | .str s => .ok s.length
  | .arr xs => .ok xs.length
  | .obj fs => .ok fs.length
  | _ => .error "TypeError: object has no len"

/-- Python `v[0]`. -/
def pyIndex0 : Json → Except String Json
  | .arr [] => .error "IndexError: list index out of range"
  | .arr (x :: _) => .ok x
  | .str s => if s.isEmpty then .error "IndexError: string index out of range"
              else .ok (.str s.front.toString)
  | _ => .error "TypeError: object is not subscriptable"

/-- Python `str(v)` for the values that reach string formatting in the source
(drug names and identifiers; container reprs are abbreviated, they never
reach formatting on the paths the claims concern). -/
def pyStrOf : Json → String
  | .str s => s
  | .num n => toString n
  | .null => "None"
  | .bool true => "True"
  | .bool false => "False"
  | .arr _ => "<list>"
  | .obj _ => "<dict>"

/-- Python `int(v)` on the values reaching it (numbers, booleans, numeric
strings). -/
def pyInt : Json → Except String Int
  | .num n => .ok n
  | .bool b => .ok (if b then 1 else 0)
  | .str s =>
    match s.toInt? with
    | some n => .ok n
    | none => .error ("ValueError: invalid literal for int: " ++ s)
  | _ => .error "TypeError: int argument must be a string or a number"

/-! ## The FDB collaborator and make_fdb_request (source lines 31-64) -/

/-- Outcome of one HTTP GET as seen through the requests library: either a
RequestException was raised (message, and the status code of the attached
response when one exists), or a response arrived, with its status code and
its parsed JSON body (`none` models a body on which response.json() fails). -/
inductive ReqOutcome : Type where
  | exn : String → Option Nat → ReqOutcome
  | resp : Nat → Option Json → ReqOutcome

/-- The drug-knowledge collaborator: endpoint, final query parameters and
authorization header determine the outcome of the HTTP GET.  URL-encoding of
the parameter values is part of the transport and is abstracted away (the
collaborator sees the decoded parameter strings). -/
structure FdbEnv : Type where
  get : String → List (String × String) → String → ReqOutcome

/-- The Authorization header built by make_fdb_request. -/
def authHeader (clientId clientSecret : String) : String :=
  "SHAREDKEY " ++ clientId ++ ":" ++ clientSecret

/-- Final query parameters: make_fdb_request adds callSystemName and callid
(the callid is the formatted current time, passed in here as `now`). -/
def withCallMeta (params : List (String × String)) (now : String) : List (String × String) :=
  params ++ [("callSystemName", "ChemoAnalyzer"), ("callid", now)]

def jsonOfOptNat : Option Nat → Json
  | some n => .num n
  | none => .null

/-- make_fdb_request (source lines 31-64).  Returns the status dictionary the
source builds: try/except around the GET, raise_for_status (an HTTPError for
status codes 400-599, caught by the same except clause, carrying the
response's status code), JSON decoding of the body (a decode failure is a
RequestException without an attached response). -/
def make_fdb_request (env : FdbEnv) (now : String) (endpoint : String)
    (clientId clientSecret : String) (params : List (String × String)) : Json :=
  match env.get endpoint (withCallMeta params now) (authHeader clientId clientSecret) with
  | .exn msg rsc =>
    .obj [("status", .str "error"), ("message", .str msg), ("status_code", jsonOfOptNat rsc)]
  | .resp sc body =>
    if 400 ≤ sc ∧ sc < 600 then
      .obj [("status", .str "error"), ("message", .str ("HTTPError for status " ++ toString sc)),
            ("status_code", .num (Int.ofNat sc))]
    else
      match body with
      | none => .obj [("status", .str "error"), ("message", .str "JSONDecodeError"),
                      ("status_code", .null)]
      | some b => .obj [("status", .str "success"), ("data", b),
                        ("status_code", .num (Int.ofNat sc))]

/-! ## Drug enrichment: validate_regimen_with_fdb (source lines 86-142) -/

/-- One unit of externally visible work performed by the pipeline: a call to
the completion collaborator, or an FDB HTTP request (endpoint and final
query parameters). -/
inductive Work : Type where
  | completion : String → Work
  | fdb : String → List (String × String) → Work
  deriving DecidableEq, Repr

/-- Python `v == "s"` for a string literal: true exactly on the equal string. -/
def jsonEqStr (j : Json) (s : String) : Bool :=
  match j with
  | .str t => t == s
  | _ => false

/-- The search_params dictionary built for one medication (source
lines 104-108); the value of searchtext is str(med_name) as formatted into
the URL. -/
def searchParamsFor (medName : Json) : List (String × String) :=
  [("searchtext", pyStrOf medName), ("searchtype", "contains"), ("limit", "1")]

/-- Endpoint of the interactions call, f-string of source line 124. -/
def interactionsEndpoint (drugId : Json) : String :=
  "PrescribableDrugs/" ++ pyStrOf drugId ++ "/Interactions"

/-- Endpoint of the dosing call, f-string of source line 131. -/
def doseRecordsEndpoint (drugId : Json) : String :=
  "PrescribableDrugs/" ++ pyStrOf drugId ++ "/DoseRecords"

/-- The tests the source applies to the search result (lines 117-120):
result["status"] == "success" and "data" in result, then
"Items" in drug_data and len(drug_data["Items"]) > 0, resolving to
drug_data["Items"][0]; `none` when any test is false. -/
def resolvedItem (result : Json) : Except String (Option Json) :=
  match pyGetItem result "status" with
  | .error e => .error e
  | .ok st =>
    if !(jsonEqStr st "success") then .ok none
    else
      match pyInKey "data" result with
      | .error e => .error e
      | .ok hasData =>
        if !hasData then .ok none
        else
          match pyGetItem result "data" with
          | .error e => .error e
          | .ok drugData =>
            match pyInKey "Items" drugData with
            | .error e => .error e
            | .ok hasItems =>
              if !hasItems then .ok none
              else
                match pyGetItem drugData "Items" with
                | .error e => .error e
                | .ok items =>
                  match pyLen items with
                  | .error e => .error e
                  | .ok n =>
                    if n = 0 then .ok none
                    else
                      match pyIndex0 items with
                      | .error e => .error e
                      | .ok item => .ok (some item)

/-- Body of the per-medication loop of validate_regimen_with_fdb (source
lines 100-140): the search call, and when it resolves, the interactions and
dosing calls and the validation_results entry.  Returns the optional
(key, entry) pair assigned into validation_results together with the list of
FDB calls issued for this medication. -/
def processMed (env : FdbEnv) (now clientId clientSecret : String) (med : Json) :
    Except String (Option (Json × Json) × List Work) :=
  match pyGetItem med "name" with
  | .error e => .error e
  | .ok medName =>
    let sp := searchParamsFor medName
    let result := make_fdb_request env now "PrescribableDrugs" clientId clientSecret sp
    let w1 : List Work := [.fdb "PrescribableDrugs" (withCallMeta sp now)]
    match resolvedItem result with
    | .error e => .error e
    | .ok none => .ok (none, w1)
    | .ok (some item) =>
      match pyGetItem item "PrescribableDrugID" with
      | .error e => .error e
      | .ok drugId =>
        let interactions := make_fdb_request env now (interactionsEndpoint drugId)
          clientId clientSecret []
        let dosing := make_fdb_request env now (doseRecordsEndpoint drugId)
          clientId clientSecret []
        match pyGetDefault interactions "data" (.obj []) with
        | .error e => .error e
        | .ok idata =>
          match pyGetDefault dosing "data" (.obj []) with
          | .error e => .error e
          | .ok ddata =>
            .ok (some (medName, .obj [("drug_info", item), ("interactions", idata),
                                       ("dosing", ddata)]),
                 w1 ++ [.fdb (interactionsEndpoint drugId) (withCallMeta [] now),
                        .fdb (doseRecordsEndpoint drugId) (withCallMeta [] now)])

/-- Assignment `d[k] = v` on an association-list dictionary: replace the
value at the first key equal to k (keeping the stored key and its position,
as a Python dict does), else append the new binding. -/
def dictSet : List (Json × Json) → Json → Json → List (Json × Json)
  | [], k, v => [(k, v)]
  | (k0, v0) :: rest, k, v =>
    if Json.beq k0 k then (k0, v) :: rest else (k0, v0) :: dictSet rest k v

/-- The `for med in all_meds` loop of validate_regimen_with_fdb, threading
validation_results and accumulating the FDB calls issued. -/
def enrichLoop (env : FdbEnv) (now clientId clientSecret : String) :
    List Json → List (Json × Json) → List Work →
    Except String (List (Json × Json) × List Work)
  | [], acc, ws => .ok (acc, ws)
  | med :: rest, acc, ws =>
    match processMed env now clientId clientSecret med with
    | .error e => .error e
    | .ok (none, w) => enrichLoop env now clientId clientSecret rest acc (ws ++ w)
    | .ok (some (k, v), w) =>
      enrichLoop env now clientId clientSecret rest (dictSet acc k v) (ws ++ w)

/-- validate_regimen_with_fdb (source lines 86-142), instrumented with the
list of FDB calls issued.  Uncaught Python exceptions on malformed input
(KeyError/TypeError) surface as `.error`. -/
def validate_regimen_with_fdb (env : FdbEnv) (now clientId clientSecret : String)
    (regimenData : Json) : Except String (List (Json × Json) × List Work) :=
  if Json.falsy regimenData then .ok ([], [])
  else
    match pyInKey "phase1" regimenData with
    | .error e => .error e
    | .ok hasPhase =>
      if !hasPhase then .ok ([], [])
      else
        match pyGetItem regimenData "phase1" with
        | .error e => .error e
        | .ok p1 =>
          match pyGetItem p1 "treatmentTemplate" with
          | .error e => .error e
          | .ok tt =>
            match pyGetItem tt "cycle" with
            | .error e => .error e
            | .ok cy =>
              match pyGetItem cy "medications" with
              | .error e => .error e
              | .ok medsD =>
                match pyGetItem medsD "day1" with
                | .error e => .error e
                | .ok day1 =>
                  match pyGetDefault day1 "pretreatmentMedications" (.arr []) with
                  | .error e => .error e
                  | .ok pre =>
                    match pyGetDefault day1 "chemotherapy" (.arr []) with
                    | .error e => .error e
                    | .ok chemo =>
                      match pyGetDefault day1 "targetedTherapy" (.arr []) with
                      | .error e => .error e
                      | .ok tgt =>
                        match pre, chemo, tgt with
                        | .arr preL, .arr chemoL, .arr tgtL =>
                          enrichLoop env now clientId clientSecret
                            (preL ++ chemoL ++ tgtL) [] []
                        | _, _, _ => .error "TypeError: can only concatenate list"

/-! ## Treatment-calendar rendering (source lines 265-295) -/

/-- Cycle length (source line 280):
int(cycle_data.get('duration', \x7b\x7d).get('numberOfDays', 28)). -/
def cycleLengthOf (cycleData : Json) : Except String Int :=
  match pyGetDefault cycleData "duration" (.obj []) with
  | .error e => .error e
  | .ok dur =>
    match pyGetDefault dur "numberOfDays" (.num 28) with
    | .error e => .error e
    | .ok nod => pyInt nod

/-- Python iteration `for med in medications[med_type]`. -/
def pyIterate : Json → Except String (List Json)
  | .arr xs => .ok xs
  | .str s => .ok (s.toList.map (fun c => .str c.toString))
  | .obj fs => .ok (fs.map (fun kv => .str kv.1))
  | _ => .error "TypeError: object is not iterable"

/-- The rendered line of one medication (source line 295):
the (str(med['name']), str(med['dose'])) pair of the markdown line. -/
def renderMeds : List Json → Except String (List (String × String))
  | [] => .ok []
  | med :: rest =>
    match pyGetItem med "name" with
    | .error e => .error e
    | .ok n =>
      match pyGetItem med "dose" with
      | .error e => .error e
      | .ok d =>
        match renderMeds rest with
        | .error e => .error e
        | .ok tl => .ok ((pyStrOf n, pyStrOf d) :: tl)

/-- Rendering of one medication group on day 1 (source lines 292-295):
`if med_type in medications:` then the medication lines in order. -/
def renderGroup (meds : Json) (group : String) : Except String (List (String × String)) :=
  match pyInKey group meds with
  | .error e => .error e
  | .ok has =>
    if !has then .ok []
    else
      match pyGetItem meds group with
      | .error e => .error e
      | .ok lst =>
        match pyIterate lst with
        | .error e => .error e
        | .ok ms => renderMeds ms

/-- Medication lines rendered for one day (source lines 289-295): only day 1
is ever populated — the source reads cycle_data['medications']['day1'] under
`if day == 1` (its comment: "Assuming day 1 medications for now"); every
other day shows no medications regardless of the schedule. -/
def renderDay (cycleData : Json) (day : Nat) : Except String (List (String × String)) :=
  if day = 1 then
    match pyGetItem cycleData "medications" with
    | .error e => .error e
    | .ok medsD =>
      match pyGetItem medsD "day1" with
      | .error e => .error e
      | .ok meds =>
        match renderGroup meds "chemotherapy" with
        | .error e => .error e
        | .ok l1 =>
          match renderGroup meds "targetedTherapy" with
          | .error e => .error e
          | .ok l2 => .ok (l1 ++ l2)
  else .ok []

/-- The `for day in range(1, cycle_length + 1)` loop, producing one
(day, medication lines) entry per day.  An exception aborts the loop (the
partial markdown emitted before the exception is below the granularity of
this model). -/
def calendarLoop (cycleData : Json) : List Nat → Except String (List (Nat × List (String × String)))
  | [] => .ok []
  | day :: rest =>
    match renderDay cycleData day with
    | .error e => .error e
    | .ok ms =>
      match calendarLoop cycleData rest with
      | .error e => .error e
      | .ok tl => .ok ((day, ms) :: tl)

/-- Python range(1, n + 1) for a possibly non-positive n. -/
def range1 (n : Int) : List Nat := (List.range n.toNat).map (· + 1)

/-- The Treatment Calendar tab for one selected template (source
lines 278-295), as the ordered list of (day, rendered medication lines).
The seven-column visual layout is presentation and is not modelled. -/
def renderCalendar (regimenData : Json) : Except String (List (Nat × List (String × String))) :=
  match pyInKey "phase1" regimenData with
  | .error e => .error e
  | .ok has =>
    if !has then .ok []
    else
      match pyGetItem regimenData "phase1" with
      | .error e => .error e
      | .ok p1 =>
        match pyGetItem p1 "treatmentTemplate" with
        | .error e => .error e
        | .ok tt =>
          match pyGetItem tt "cycle" with
          | .error e => .error e
          | .ok cy =>
            match cycleLengthOf cy with
            | .error e => .error e
            | .ok len => calendarLoop cy (range1 len)

/-! ## The per-document analysis step of main (source lines 211-248) -/

/-- The session state owned by the analysis loop: st.session_state
json_outputs (file name to parsed template) and fdb_validation (file name to
validation_results). -/
structure OrchState : Type where
  json_outputs : List (String × Json)
  fdb_validation : List (String × List (Json × Json))

/-- Assignment `d[k] = v` on a string-keyed association-list dictionary. -/
def alistSetS {β : Type} : List (String × β) → String → β → List (String × β)
  | [], k, v => [(k, v)]
  | (k0, v0) :: rest, k, v =>
    if k0 = k then (k0, v) :: rest else (k0, v0) :: alistSetS rest k v

/-- Observable outcome of running the per-document analysis step: the updated
session state, the external work performed, the raw model replies displayed
(st.code) on parse failure, and the uncaught exception when one aborted the
run (session-state mutations made before it are kept, work performed inside
an aborted enrichment is below the granularity of this model). -/
structure StepOut : Type where
  state : OrchState
  work : List Work
  rawShown : List String
  exn : Option String

/-- The prompt built for the completion collaborator (source line 228). -/
def extractionPrompt (pdfText : String) : String :=
  "Extract structured regimen data from this template:\n\n" ++ pdfText

/-- Per-document body of the Template Analysis loop (source lines 211-248).
parseJson models json.loads on the reply (`none` = JSONDecodeError);
complete models the completion collaborator (prompt to raw reply text);
docText is the result of process_pdf for this document ("" when PDF
extraction failed).  A document whose name is already in json_outputs is
skipped entirely; empty extracted text skips the rest; a parsed reply is
stored unconditionally, and enrichment runs only when both credentials are
non-empty strings. -/
def processDoc (parseJson : String → Option Json) (complete : String → String)
    (env : FdbEnv) (now clientId clientSecret : String)
    (docName docText : String) (S : OrchState) : StepOut :=
  if (alookup S.json_outputs docName).isSome then ⟨S, [], [], none⟩
  else if docText = "" then ⟨S, [], [], none⟩
  else
    let prompt := extractionPrompt docText
    let reply := complete prompt
    match parseJson reply with
    | none => ⟨S, [.completion prompt], [reply], none⟩
    | some data =>
      let S1 : OrchState := { S with json_outputs := alistSetS S.json_outputs docName data }
      if clientId ≠ "" ∧ clientSecret ≠ "" then
        match validate_regimen_with_fdb env now clientId clientSecret data with
        | .error e => ⟨S1, [.completion prompt], [], some e⟩
        | .ok (res, ws) =>
          ⟨{ S1 with fdb_validation := alistSetS S1.fdb_validation docName res },
           .completion prompt :: ws, [], none⟩
      else ⟨S1, [.completion prompt], [], none⟩

/-! ## Typed regimen schema

The schema is read off the access paths the source uses
(regimen_data['phase1']['treatmentTemplate']['cycle']['medications']['day1'],
the three medication groups, med['name'] / med['dose'], and
cycle.duration.numberOfDays).  `toJson` produces the JSON shape the source
expects, so theorems can quantify over well-formed regimens. -/

structure Medication : Type where
  name : String
  dose : String
  deriving DecidableEq, Repr

structure DaySchedule : Type where
  pretreatmentMedications : Option (List Medication) := none
  chemotherapy : Option (List Medication) := none
  targetedTherapy : Option (List Medication) := none
  deriving DecidableEq, Repr

structure Duration : Type where
  numberOfDays : Option Int
  deriving DecidableEq, Repr

structure Cycle : Type where
  duration : Option Duration := none
  medications : List (String × DaySchedule) := []
  deriving DecidableEq, Repr

structure Phase : Type where
  cycle : Cycle
  deriving DecidableEq, Repr

structure Regimen : Type where
  phase1 : Option Phase := none
  deriving DecidableEq, Repr

def Medication.toJson (m : Medication) : Json :=
  .obj [("name", .str m.name), ("dose", .str m.dose)]

/-- The field list contributed by one optional medication group. -/
def optMedsField (key : String) : Option (List Medication) → List (String × Json)
  | none => []
  | some ms => [(key, .arr (ms.map Medication.toJson))]

def DaySchedule.toJson (d : DaySchedule) : Json :=
  .obj (optMedsField "pretreatmentMedications" d.pretreatmentMedications ++
        optMedsField "chemotherapy" d.chemotherapy ++
        optMedsField "targetedTherapy" d.targetedTherapy)

def Duration.toJson (d : Duration) : Json :=
  .obj (match d.numberOfDays with
        | none => []
        | some n => [("numberOfDays", .num n)])

def Cycle.toJson (c : Cycle) : Json :=
  .obj ((match c.duration with
         | none => []
         | some d => [("duration", d.toJson)]) ++
        [("medications", .obj (c.medications.map (fun kv => (kv.1, kv.2.toJson))))])

def Phase.toJson (p : Phase) : Json :=
  .obj [("treatmentTemplate", .obj [("cycle", p.cycle.toJson)])]

def Regimen.toJson (r : Regimen) : Json :=
  .obj (match r.phase1 with
        | none => []
        | some p => [("phase1", p.toJson)])

/-- All medications of a day schedule, in the group order the source uses. -/
def DaySchedule.allMeds (d : DaySchedule) : List Medication :=
  d.pretreatmentMedications.getD [] ++ d.chemotherapy.getD [] ++ d.targetedTherapy.getD []

/-- The medications the enrichment loop iterates over: the day-1 schedule of
phase1 (empty when phase1 or day1 is missing). -/
def day1MedsOf (r : Regimen) : List Medication :=
  match r.phase1 with
  | none => []
  | some p =>
    match alookup p.cycle.medications "day1" with
    | none => []
    | some d => d.allMeds

/-- Splitting of a character list at whitespace characters. -/
def splitWs : List Char → List Char → List (List Char)
  | [], cur => [cur.reverse]
  | c :: rest, cur =>
    if c.isWhitespace then cur.reverse :: splitWs rest []
    else splitWs rest (c :: cur)

/-- Modelled from the spec (no counterpart in the source): the
case-insensitive, whitespace-normalized form of a medication name that the
spec declares to be the enrichment identity — trimmed, internal whitespace
collapsed to single spaces, lower-cased. -/
def specNormalizeName (s : String) : String :=
  String.mk ((List.intercalate [' ']
    ((splitWs s.data []).filter (fun t => t ≠ []))).map Char.toLower)

/-- The search queries among a list of FDB calls: the calls to the
PrescribableDrugs search endpoint, by their final query parameters. -/
def searchesOf (ws : List Work) : List (List (String × String)) :=
  ws.filterMap (fun w =>
    match w with
    | .fdb ep ps => if ep = "PrescribableDrugs" then some ps else none
    | _ => none)

/-! ## Concrete fixtures for witnesses and counterexamples -/

/-- A healthy collaborator: every search resolves to one item with
PrescribableDrugID "42", every other call succeeds with an empty object. -/
def envOK : FdbEnv :=
  ⟨fun ep _ _ =>
    if ep = "PrescribableDrugs" then
      .resp 200 (some (.obj [("Items", .arr [.obj [("PrescribableDrugID", .str "42")]])]))
    else .resp 200 (some (.obj []))⟩

/-- A collaborator where every request raises a connection error. -/
def envFail : FdbEnv := ⟨fun _ _ _ => .exn "ConnectionError: boom" none⟩

/-- A collaborator where search resolves to drug id 7 but the interactions
call for it raises, and everything else succeeds. -/
def envInterFail : FdbEnv :=
  ⟨fun ep _ _ =>
    if ep = "PrescribableDrugs" then
      .resp 200 (some (.obj [("Items", .arr [.obj [("PrescribableDrugID", .str "7")]])]))
    else if ep = "PrescribableDrugs/7/Interactions" then .exn "ReadTimeout" none
    else .resp 200 (some (.obj []))⟩

/-- A collaborator where search resolves to drug id 7, the interactions call
succeeds with a distinctive body, and the dosing call for it raises. -/
def envDoseFail : FdbEnv :=
  ⟨fun ep _ _ =>
    if ep = "PrescribableDrugs" then
      .resp 200 (some (.obj [("Items", .arr [.obj [("PrescribableDrugID", .str "7")]])]))
    else if ep = "PrescribableDrugs/7/DoseRecords" then .exn "ReadTimeout" none
    else .resp 200 (some (.obj [("ok", .bool true)]))⟩

/-- The enrichment entry produced under envOK. -/
def entry42 : Json :=
  .obj [("drug_info", .obj [("PrescribableDrugID", .str "42")]),
        ("interactions", .obj []), ("dosing", .obj [])]

/-- A regimen whose day-1 chemotherapy lists the same drug twice with names
differing only in case. -/
def rAra : Regimen :=
  { phase1 := some { cycle := { medications := [("day1",
      { chemotherapy := some [⟨"Ara-C", "100mg"⟩, ⟨"ara-c", "100mg"⟩] })] } } }

/-- The validation_results produced for rAra under envOK: two separate
entries keyed by the two raw spellings. -/
def araRes : List (Json × Json) := [(.str "Ara-C", entry42), (.str "ara-c", entry42)]

/-- The FDB calls issued for rAra under envOK: a full three-call chain per
occurrence, including a second search for the case-variant spelling. -/
def araTrace : List Work :=
  [.fdb "PrescribableDrugs" (withCallMeta (searchParamsFor (.str "Ara-C")) "t0"),
   .fdb "PrescribableDrugs/42/Interactions" (withCallMeta [] "t0"),
   .fdb "PrescribableDrugs/42/DoseRecords" (withCallMeta [] "t0"),
   .fdb "PrescribableDrugs" (withCallMeta (searchParamsFor (.str "ara-c")) "t0"),
   .fdb "PrescribableDrugs/42/Interactions" (withCallMeta [] "t0"),
   .fdb "PrescribableDrugs/42/DoseRecords" (withCallMeta [] "t0")]

def dsCis : DaySchedule := { chemotherapy := some [⟨"Cisplatin", "50mg"⟩] }

def cyCis : Cycle := { medications := [("day1", dsCis)] }

/-- A regimen with one day-1 chemotherapy medication and no explicit cycle
duration. -/
def rCis : Regimen := { phase1 := some ⟨cyCis⟩ }

/-- A cycle whose day-1 schedule is empty while day 2 carries a
chemotherapy medication. -/
def cyDay2 : Cycle :=
  { medications := [("day1", {}), ("day2", { chemotherapy := some [⟨"Foo", "1mg"⟩] })] }

def rDay2 : Regimen := { phase1 := some ⟨cyDay2⟩ }

/-- The C1 failing input: a three-day cycle with medications scheduled on
day 1 and on day 2. -/
def cyCal : Cycle :=
  { duration := some ⟨some 3⟩
    medications := [("day1", { chemotherapy := some [⟨"Cisplatin", "50mg"⟩] }),
                    ("day2", { chemotherapy := some [⟨"Docetaxel", "75mg/m2"⟩] })] }

def rCal : Regimen := { phase1 := some ⟨cyCal⟩ }

/-- A regimen with no explicit duration and no day-1 key at all. -/
def rNoDay1 : Regimen := { phase1 := some ⟨{}⟩ }

/-- A json.loads model on which every reply fails to parse. -/
def parse0 : String → Option Json := fun _ => none

/-- A json.loads model on which every reply parses to the empty object —
valid JSON with none of the mandatory regimen structure. -/
def parseObj : String → Option Json := fun _ => some (.obj [])

/-- A completion collaborator that always answers "not json". -/
def complete0 : String → String := fun _ => "not json"

/-! ## Helper lemmas -/

lemma interactionsEndpoint_ne (j : Json) : interactionsEndpoint j ≠ "PrescribableDrugs" := by
  intro h
  have hl := congrArg String.length h
  rw [interactionsEndpoint, String.length_append, String.length_append] at hl
  have h1 : ("PrescribableDrugs/" : String).length = 18 := rfl
  have h2 : ("/Interactions" : String).length = 13 := rfl
  have h3 : ("PrescribableDrugs" : String).length = 17 := rfl
  omega

lemma doseRecordsEndpoint_ne (j : Json) : doseRecordsEndpoint j ≠ "PrescribableDrugs" := by
  intro h
  have hl := congrArg String.length h
  rw [doseRecordsEndpoint, String.length_append, String.length_append] at hl
  have h1 : ("PrescribableDrugs/" : String).length = 18 := rfl
  have h2 : ("/DoseRecords" : String).length = 12 := rfl
  have h3 : ("PrescribableDrugs" : String).length = 17 := rfl
  omega

lemma searchesOf_append (a b : List Work) :
    searchesOf (a ++ b) = searchesOf a ++ searchesOf b := by
  simp [searchesOf, List.filterMap_append]

/-- Shape of a successful processMed run: the medication has a name, exactly
one search query was issued for it, and a produced entry is keyed by that
name and carries a drug_info field. -/
lemma processMed_shape (env : FdbEnv) (now cid cs : String) (med : Json)
    (o : Option (Json × Json)) (w : List Work)
    (h : processMed env now cid cs med = .ok (o, w)) :
    ∃ nm, pyGetItem med "name" = .ok nm ∧
      searchesOf w = [withCallMeta (searchParamsFor nm) now] ∧
      ∀ k v, o = some (k, v) → k = nm ∧
        ∃ info, pyGetItem v "drug_info" = .ok info := by
  unfold processMed at h
  split at h
  · exact absurd h (by simp)
  · rename_i nm hnm
    refine ⟨nm, hnm, ?_⟩
    dsimp only at h
    split at h
    · exact absurd h (by simp)
    · simp only [Except.ok.injEq, Prod.mk.injEq] at h
      obtain ⟨ho, hw⟩ := h
      subst ho hw
      constructor
      · simp [searchesOf]
      · intro k v hkv; simp at hkv
    · rename_i item hitem
      split at h
      · exact absurd h (by simp)
      · rename_i did hdid
        split at h
        · exact absurd h (by simp)
        · rename_i idata hidata
          split at h
          · exact absurd h (by simp)
          · rename_i ddata hddata
            simp only [Except.ok.injEq, Prod.mk.injEq] at h
            obtain ⟨ho, hw⟩ := h
            subst ho hw
            constructor
            · simp [searchesOf_append, searchesOf, interactionsEndpoint_ne,
                doseRecordsEndpoint_ne]
            · intro k v hkv
              simp only [Option.some.injEq, Prod.mk.injEq] at hkv
              obtain ⟨hk, hv⟩ := hkv
              subst hk hv
              exact ⟨rfl, item, rfl⟩

lemma make_fdb_congr (env env2 : FdbEnv) (now ep cid cs : String) (ps : List (String × String))
    (h : env2.get ep (withCallMeta ps now) (authHeader cid cs)
       = env.get ep (withCallMeta ps now) (authHeader cid cs)) :
    make_fdb_request env2 now ep cid cs ps = make_fdb_request env now ep cid cs ps := by
  unfold make_fdb_request
  rw [h]

/-- Per-medication locality: the outcome for one medication depends only on
the collaborator's responses to the calls issued for that medication (the
work trace).  Any environment agreeing on those calls gives the identical
entry and trace. -/
lemma processMed_local (env env2 : FdbEnv) (now cid cs : String) (med : Json)
    (out : Option (Json × Json) × List Work)
    (h : processMed env now cid cs med = .ok out)
    (hag : ∀ ep ps, Work.fdb ep ps ∈ out.2 →
      env2.get ep ps (authHeader cid cs) = env.get ep ps (authHeader cid cs)) :
    processMed env2 now cid cs med = .ok out := by
  unfold processMed at h ⊢
  cases hnm : pyGetItem med "name" with
  | error e =>
    rw [hnm] at h
    exact absurd h (by simp)
  | ok nm =>
    rw [hnm] at h
    dsimp only at h ⊢
    split at h
    · exact absurd h (by simp)
    · rename_i hres
      simp only [Except.ok.injEq] at h
      subst h
      have hs := make_fdb_congr env env2 now "PrescribableDrugs" cid cs (searchParamsFor nm)
        (hag _ _ (by simp))
      simp only [hs, hres]
    · rename_i item hres
      split at h
      · exact absurd h (by simp)
      · rename_i did hdid
        split at h
        · exact absurd h (by simp)
        · rename_i idata hidata
          split at h
          · exact absurd h (by simp)
          · rename_i ddata hddata
            simp only [Except.ok.injEq] at h
            subst h
            have hs := make_fdb_congr env env2 now "PrescribableDrugs" cid cs (searchParamsFor nm)
              (hag _ _ (by simp))
            have hi := make_fdb_congr env env2 now (interactionsEndpoint did) cid cs []
              (hag _ _ (by simp))
            have hd := make_fdb_congr env env2 now (doseRecordsEndpoint did) cid cs []
              (hag _ _ (by simp))
            simp only [hs, hres, hdid, hi, hd, hidata, hddata]

lemma dictSet_mem (k v : Json) :
    ∀ (acc : List (Json × Json)), ∀ kv ∈ dictSet acc k v,
      (kv ∈ acc ∨ kv.2 = v) ∧ ((∃ b0, (kv.1, b0) ∈ acc) ∨ kv.1 = k) := by
  intro acc
  induction acc with
  | nil =>
    intro kv hkv
    simp [dictSet] at hkv
    subst hkv
    exact ⟨Or.inr rfl, Or.inr rfl⟩
  | cons hd tl ih =>
    intro kv hkv
    obtain ⟨k0, v0⟩ := hd
    simp only [dictSet] at hkv
    by_cases hb : Json.beq k0 k
    · rw [if_pos hb] at hkv
      rcases List.mem_cons.mp hkv with h1 | h2
      · subst h1
        exact ⟨Or.inr rfl, Or.inl ⟨v0, List.mem_cons_self _ _⟩⟩
      · exact ⟨Or.inl (List.mem_cons_of_mem _ h2),
          Or.inl ⟨kv.2, List.mem_cons_of_mem _ h2⟩⟩
    · rw [if_neg hb] at hkv
      rcases List.mem_cons.mp hkv with h1 | h2
      · subst h1
        exact ⟨Or.inl (List.mem_cons_self _ _), Or.inl ⟨v0, List.mem_cons_self _ _⟩⟩
      · obtain ⟨ha, hb2⟩ := ih kv h2
        refine ⟨?_, ?_⟩
        · rcases ha with h | h
          · exact Or.inl (List.mem_cons_of_mem _ h)
          · exact Or.inr h
        · rcases hb2 with ⟨b0, h⟩ | h
          · exact Or.inl ⟨b0, List.mem_cons_of_mem _ h⟩
          · exact Or.inr h

lemma med_toJson_name (m : Medication) :
    pyGetItem m.toJson "name" = .ok (.str m.name) := rfl

/-- Invariant of the enrichment loop over encoded medications: one search
query per occurrence in order, and every produced entry is keyed by the raw
name of one of the medications and carries a drug_info field. -/
lemma enrichLoop_spec (env : FdbEnv) (now cid cs : String) (ms : List Medication) :
    ∀ acc ws res tr,
      enrichLoop env now cid cs (ms.map Medication.toJson) acc ws = .ok (res, tr) →
      searchesOf tr = searchesOf ws ++
        ms.map (fun m => withCallMeta (searchParamsFor (.str m.name)) now) ∧
      ∀ kv ∈ res,
        ((∃ b, (kv.1, b) ∈ acc) ∨ ∃ m ∈ ms, kv.1 = Json.str m.name) ∧
        (kv ∈ acc ∨ ∃ info, pyGetItem kv.2 "drug_info" = .ok info) := by
  induction ms with
  | nil =>
    intro acc ws res tr h
    simp only [List.map_nil, enrichLoop, Except.ok.injEq, Prod.mk.injEq] at h
    obtain ⟨h1, h2⟩ := h
    subst h1 h2
    refine ⟨by simp, ?_⟩
    intro kv hkv
    exact ⟨Or.inl ⟨kv.2, hkv⟩, Or.inl hkv⟩
  | cons m ms ih =>
    intro acc ws res tr h
    simp only [List.map_cons, enrichLoop] at h
    cases hpm : processMed env now cid cs m.toJson with
    | error e => rw [hpm] at h; exact absurd h (by simp)
    | ok p =>
      rw [hpm] at h
      obtain ⟨o, w⟩ := p
      obtain ⟨nm, hnm, hsw, hshape⟩ := processMed_shape env now cid cs _ o w hpm
      rw [med_toJson_name m] at hnm
      injection hnm with hnm
      subst hnm
      cases o with
      | none =>
        obtain ⟨ihs, ihm⟩ := ih acc (ws ++ w) res tr h
        refine ⟨?_, ?_⟩
        · rw [ihs, searchesOf_append, hsw]
          simp
        · intro kv hkv
          obtain ⟨hk, hv⟩ := ihm kv hkv
          refine ⟨?_, hv⟩
          rcases hk with h1 | ⟨m', hm', he⟩
          · exact Or.inl h1
          · exact Or.inr ⟨m', List.mem_cons_of_mem _ hm', he⟩
      | some kv0 =>
        obtain ⟨k0, v0⟩ := kv0
        obtain ⟨hk0, info, hinfo⟩ := hshape k0 v0 rfl
        subst hk0
        obtain ⟨ihs, ihm⟩ := ih (dictSet acc (.str m.name) v0) (ws ++ w) res tr h
        refine ⟨?_, ?_⟩
        · rw [ihs, searchesOf_append, hsw]
          simp
        · intro kv hkv
          obtain ⟨hk, hv⟩ := ihm kv hkv
          have hvv : kv ∈ acc ∨ ∃ i2, pyGetItem kv.2 "drug_info" = .ok i2 := by
            rcases hv with h1 | h2
            · obtain ⟨ha, _⟩ := dictSet_mem _ _ _ kv h1
              rcases ha with hh | hh
              · exact Or.inl hh
              · exact Or.inr ⟨info, by rw [hh]; exact hinfo⟩
            · exact Or.inr h2
          refine ⟨?_, hvv⟩
          rcases hk with ⟨b, hb⟩ | ⟨m', hm', he⟩
          · obtain ⟨_, hkk⟩ := dictSet_mem _ _ _ (kv.1, b) hb
            rcases hkk with ⟨b0, hb0⟩ | hkeq
            · exact Or.inl ⟨b0, hb0⟩
            · exact Or.inr ⟨m, List.mem_cons_self _ _, hkeq⟩
          · exact Or.inr ⟨m', List.mem_cons_of_mem _ hm', he⟩

lemma alookup_map {β γ : Type} (f : β → γ) :
    ∀ (l : List (String × β)) (key : String),
      alookup (l.map (fun kv => (kv.1, f kv.2))) key = (alookup l key).map f := by
  intro l key
  induction l with
  | nil => rfl
  | cons hd tl ih =>
    obtain ⟨k, v⟩ := hd
    simp only [List.map_cons, alookup]
    by_cases h : k = key
    · rw [if_pos h, if_pos h]; rfl
    · rw [if_neg h, if_neg h]; exact ih

lemma daySchedule_groups (ds : DaySchedule) :
    pyGetDefault ds.toJson "pretreatmentMedications" (.arr []) =
      .ok (.arr ((ds.pretreatmentMedications.getD []).map Medication.toJson)) ∧
    pyGetDefault ds.toJson "chemotherapy" (.arr []) =
      .ok (.arr ((ds.chemotherapy.getD []).map Medication.toJson)) ∧
    pyGetDefault ds.toJson "targetedTherapy" (.arr []) =
      .ok (.arr ((ds.targetedTherapy.getD []).map Medication.toJson)) := by
  obtain ⟨p, c, t⟩ := ds
  cases p <;> cases c <;> cases t <;> exact ⟨rfl, rfl, rfl⟩

lemma cycle_toJson_medications (c : Cycle) :
    pyGetItem c.toJson "medications" =
      .ok (.obj (c.medications.map (fun kv => (kv.1, kv.2.toJson)))) := by
  cases hd : c.duration <;> simp [Cycle.toJson, hd, pyGetItem, alookup]

/-- validate_regimen_with_fdb on a well-formed regimen: nothing when phase1 is
absent, a KeyError when the day-1 schedule is absent, otherwise the
enrichment loop over the day-1 medications of phase1. -/
lemma validate_toJson (env : FdbEnv) (now cid cs : String) (r : Regimen) :
    validate_regimen_with_fdb env now cid cs r.toJson =
      match r.phase1 with
      | none => .ok ([], [])
      | some p =>
        match alookup p.cycle.medications "day1" with
        | none => .error "KeyError: day1"
        | some ds => enrichLoop env now cid cs (ds.allMeds.map Medication.toJson) [] [] := by
  have pyGetItem_obj : ∀ (fs : List (String × Json)) (key : String),
      pyGetItem (.obj fs) key =
        (match alookup fs key with
         | some v => Except.ok v
         | none => Except.error ("KeyError: " ++ key)) := fun _ _ => rfl
  cases hp : r.phase1 with
  | none => simp [Regimen.toJson, hp, validate_regimen_with_fdb, Json.falsy]
  | some p =>
    simp only [Regimen.toJson, hp, validate_regimen_with_fdb, Phase.toJson]
    simp [Json.falsy, pyInKey, pyGetItem_obj, alookup]
    simp only [cycle_toJson_medications]
    simp only [pyGetItem_obj, alookup_map]
    cases hd1 : alookup p.cycle.medications "day1" with
    | none => simp
    | some ds =>
      simp only [Option.map_some']
      obtain ⟨g1, g2, g3⟩ := daySchedule_groups ds
      simp only [g1, g2, g3]
      simp [DaySchedule.allMeds, List.map_append]


lemma renderMeds_toJson : ∀ ms : List Medication,
    renderMeds (ms.map Medication.toJson) = .ok (ms.map (fun m => (m.name, m.dose))) := by
  intro ms
  induction ms with
  | nil => rfl
  | cons m rest ih =>
    simp only [List.map_cons, renderMeds, med_toJson_name]
    have hd : pyGetItem m.toJson "dose" = .ok (.str m.dose) := rfl
    rw [hd, ih]
    rfl

lemma renderGroup_encoded (ds : DaySchedule) :
    renderGroup ds.toJson "chemotherapy" =
      .ok ((ds.chemotherapy.getD []).map (fun m => (m.name, m.dose))) ∧
    renderGroup ds.toJson "targetedTherapy" =
      .ok ((ds.targetedTherapy.getD []).map (fun m => (m.name, m.dose))) := by
  obtain ⟨p, c, t⟩ := ds
  cases p <;> cases c <;> cases t <;>
    constructor <;>
      simp [renderGroup, DaySchedule.toJson, optMedsField, pyInKey, alookup,
        pyGetItem, pyIterate, renderMeds_toJson]

lemma renderDay_encoded (c : Cycle) (ds : DaySchedule)
    (h : alookup c.medications "day1" = some ds) :
    renderDay c.toJson 1 =
      .ok ((ds.chemotherapy.getD []).map (fun m => (m.name, m.dose)) ++
           (ds.targetedTherapy.getD []).map (fun m => (m.name, m.dose))) := by
  obtain ⟨g2, g3⟩ := renderGroup_encoded ds
  have pyGetItem_obj : ∀ (fs : List (String × Json)) (key : String),
      pyGetItem (.obj fs) key =
        (match alookup fs key with
         | some v => Except.ok v
         | none => Except.error ("KeyError: " ++ key)) := fun _ _ => rfl
  simp only [renderDay, if_pos rfl, cycle_toJson_medications]
  simp only [pyGetItem_obj, alookup_map, h, Option.map_some']
  simp only [g2, g3]
  simp

lemma renderDay_ne_one (cy : Json) (d : Nat) (h : d ≠ 1) : renderDay cy d = .ok [] := by
  simp [renderDay, h]

lemma calendarLoop_ok (cy : Json) (ms1 : List (String × String))
    (h1 : renderDay cy 1 = .ok ms1) :
    ∀ days, ∃ L, calendarLoop cy days = .ok L ∧ L.map Prod.fst = days := by
  intro days
  induction days with
  | nil => exact ⟨[], rfl, rfl⟩
  | cons d rest ih =>
    obtain ⟨L, hL, hmap⟩ := ih
    by_cases hd : d = 1
    · subst hd
      refine ⟨(1, ms1) :: L, ?_, by simp [hmap]⟩
      simp [calendarLoop, h1, hL]
    · refine ⟨(d, []) :: L, ?_, by simp [hmap]⟩
      simp [calendarLoop, renderDay_ne_one cy d hd, hL]

lemma cycleLength_default (c : Cycle) (h : c.duration = none) :
    cycleLengthOf c.toJson = .ok 28 := by
  simp [cycleLengthOf, Cycle.toJson, h, pyGetDefault, alookup, pyInt]

lemma renderCalendar_toJson (r : Regimen) (p : Phase) (hp : r.phase1 = some p) :
    renderCalendar r.toJson =
      match cycleLengthOf p.cycle.toJson with
      | .error e => .error e
      | .ok len => calendarLoop p.cycle.toJson (range1 len) := by
  have pyGetItem_obj : ∀ (fs : List (String × Json)) (key : String),
      pyGetItem (.obj fs) key =
        (match alookup fs key with
         | some v => Except.ok v
         | none => Except.error ("KeyError: " ++ key)) := fun _ _ => rfl
  simp only [renderCalendar, Regimen.toJson, hp, Phase.toJson]
  simp [pyInKey, alookup, pyGetItem_obj]


lemma make_data_default (env : FdbEnv) (now ep cid cs : String) (ps : List (String × String)) :
    ∃ d, pyGetDefault (make_fdb_request env now ep cid cs ps) "data" (.obj []) = .ok d := by
  unfold make_fdb_request
  cases env.get ep (withCallMeta ps now) (authHeader cid cs) with
  | exn m c => exact ⟨_, rfl⟩
  | resp sc body =>
    dsimp only
    by_cases h : 400 ≤ sc ∧ sc < 600
    · rw [if_pos h]; exact ⟨_, rfl⟩
    · rw [if_neg h]
      cases body with
      | none => exact ⟨_, rfl⟩
      | some b => exact ⟨_, rfl⟩

/-! ## Claim theorems -/

/-- C1 (code evaluation at the failing input): for the three-day cycle whose
medicationsByDay contains both day1 and day2, the source's calendar renders
the correct number of days in increasing order, but the day-2 entry is empty
even though day 2 is present in medicationsByDay with a chemotherapy
medication — the source only populates day 1 (its comment: "Assuming day 1
medications for now"). -/
theorem c1_day2_rendered_empty :
    renderCalendar rCal.toJson =
      .ok [(1, [("Cisplatin", "50mg")]), (2, []), (3, [])] ∧
    alookup cyCal.medications "day2" =
      some { chemotherapy := some [⟨"Docetaxel", "75mg/m2"⟩] } ∧
    cycleLengthOf cyCal.toJson = .ok 3 :=
  ⟨rfl, rfl, rfl⟩

/-- C2 (amended): the enrichment result is keyed by the raw medication name,
and every day-1 medication occurrence triggers its own search query — one
query per occurrence in order, not one per distinct normalized name. -/
theorem c2_raw_keys_one_search_per_occurrence
    (env : FdbEnv) (now cid cs : String) (r : Regimen)
    (res : List (Json × Json)) (tr : List Work)
    (h : validate_regimen_with_fdb env now cid cs r.toJson = .ok (res, tr)) :
    searchesOf tr =
      (day1MedsOf r).map (fun m => withCallMeta (searchParamsFor (.str m.name)) now) ∧
    ∀ kv ∈ res, ∃ m ∈ day1MedsOf r, kv.1 = Json.str m.name := by
  rw [validate_toJson] at h
  obtain ⟨p1⟩ := r
  cases p1 with
  | none =>
    simp only [Except.ok.injEq, Prod.mk.injEq] at h
    obtain ⟨h1, h2⟩ := h
    subst h1 h2
    simp [day1MedsOf, searchesOf]
  | some p =>
    dsimp only at h
    cases hd1 : alookup p.cycle.medications "day1" with
    | none => rw [hd1] at h; exact absurd h (by simp)
    | some ds =>
      rw [hd1] at h
      obtain ⟨hs, hm⟩ := enrichLoop_spec env now cid cs ds.allMeds [] [] res tr h
      have hd : day1MedsOf ⟨some p⟩ = ds.allMeds := by simp [day1MedsOf, hd1]
      rw [hd]
      refine ⟨by simpa [searchesOf] using hs, ?_⟩
      intro kv hkv
      obtain ⟨hk, _⟩ := hm kv hkv
      rcases hk with ⟨b, hb⟩ | hk
      · exact absurd hb (by simp)
      · exact hk

/-- C2 witness: the amended claim evaluated under the healthy collaborator on
the regimen listing Ara-C twice with case-differing spellings. -/
theorem c2_witness :
    searchesOf araTrace =
      (day1MedsOf rAra).map (fun m => withCallMeta (searchParamsFor (.str m.name)) "t0") ∧
    ∀ kv ∈ araRes, ∃ m ∈ day1MedsOf rAra, kv.1 = Json.str m.name :=
  c2_raw_keys_one_search_per_occurrence envOK "t0" "id" "sec" rAra araRes araTrace rfl

/-- C2 counterexample: two medication occurrences whose names differ only in
case produce two separate entries keyed by the raw spellings and two search
queries, although their normalized names coincide — refuting
normalized-name keying and at-most-one-query-per-normalized-name. -/
theorem c2_counterexample :
    validate_regimen_with_fdb envOK "t0" "id" "sec" rAra.toJson = .ok (araRes, araTrace) ∧
    araRes.length = 2 ∧
    (searchesOf araTrace).length = 2 ∧
    specNormalizeName "Ara-C" = specNormalizeName "ara-c" :=
  ⟨rfl, rfl, rfl, rfl⟩

/-- C3 (amended): every entry of the enrichment output is keyed by the raw
name of a day-1 medication of phase1 and carries a resolved drug_info field;
medications scheduled on other days are never covered. -/
theorem c3_coverage_day1_resolved_only
    (env : FdbEnv) (now cid cs : String) (r : Regimen)
    (res : List (Json × Json)) (tr : List Work)
    (h : validate_regimen_with_fdb env now cid cs r.toJson = .ok (res, tr)) :
    ∀ kv ∈ res, (∃ m ∈ day1MedsOf r, kv.1 = Json.str m.name) ∧
      ∃ info, pyGetItem kv.2 "drug_info" = .ok info := by
  rw [validate_toJson] at h
  obtain ⟨p1⟩ := r
  cases p1 with
  | none =>
    simp only [Except.ok.injEq, Prod.mk.injEq] at h
    obtain ⟨h1, _⟩ := h
    subst h1
    intro kv hkv
    exact absurd hkv (by simp)
  | some p =>
    dsimp only at h
    cases hd1 : alookup p.cycle.medications "day1" with
    | none => rw [hd1] at h; exact absurd h (by simp)
    | some ds =>
      rw [hd1] at h
      obtain ⟨_, hm⟩ := enrichLoop_spec env now cid cs ds.allMeds [] [] res tr h
      have hd : day1MedsOf ⟨some p⟩ = ds.allMeds := by simp [day1MedsOf, hd1]
      rw [hd]
      intro kv hkv
      obtain ⟨hk, hv⟩ := hm kv hkv
      refine ⟨?_, ?_⟩
      · rcases hk with ⟨b, hb⟩ | hk
        · exact absurd hb (by simp)
        · exact hk
      · rcases hv with hv | hv
        · exact absurd hv (by simp)
        · exact hv

/-- C3 witness: the amended claim evaluated under the healthy collaborator on
the one-medication regimen, at the single entry of the resulting mapping. -/
theorem c3_witness :
    (∃ m ∈ day1MedsOf rCis, (Json.str "Cisplatin") = Json.str m.name) ∧
    ∃ info, pyGetItem entry42 "drug_info" = .ok info :=
  c3_coverage_day1_resolved_only envOK "t0" "id" "sec" rCis
    [(.str "Cisplatin", entry42)]
    [.fdb "PrescribableDrugs" (withCallMeta (searchParamsFor (.str "Cisplatin")) "t0"),
     .fdb "PrescribableDrugs/42/Interactions" (withCallMeta [] "t0"),
     .fdb "PrescribableDrugs/42/DoseRecords" (withCallMeta [] "t0")] rfl
    (.str "Cisplatin", entry42) (by simp)

/-- C3 counterexample: a regimen whose only medication is scheduled on day 2
gets an empty enrichment mapping even under a healthy collaborator — the
output does not cover medication names from day-schedules other than day 1,
refuting the claimed coverage of every day-schedule. -/
theorem c3_counterexample :
    validate_regimen_with_fdb envOK "t0" "id" "sec" rDay2.toJson = .ok ([], []) ∧
    (match alookup cyDay2.medications "day2" with
     | some d => d.allMeds
     | none => []) = [⟨"Foo", "1mg"⟩] :=
  ⟨rfl, rfl⟩

/-- C4 (amended): when the search call raises, or succeeds with zero matches,
no interactions or dosing call is attempted for that medication and no entry
is recorded — the name is omitted from validation_results rather than marked
with a failure status. -/
theorem c4_failure_and_nomatch_omit_entry
    (env : FdbEnv) (now cid cs : String) (med nameJ : Json)
    (hname : pyGetItem med "name" = .ok nameJ) :
    (∀ emsg ecode,
      env.get "PrescribableDrugs" (withCallMeta (searchParamsFor nameJ) now)
          (authHeader cid cs) = .exn emsg ecode →
      processMed env now cid cs med =
        .ok (none, [.fdb "PrescribableDrugs" (withCallMeta (searchParamsFor nameJ) now)])) ∧
    (env.get "PrescribableDrugs" (withCallMeta (searchParamsFor nameJ) now)
        (authHeader cid cs) = .resp 200 (some (.obj [("Items", .arr [])])) →
      processMed env now cid cs med =
        .ok (none, [.fdb "PrescribableDrugs" (withCallMeta (searchParamsFor nameJ) now)])) := by
  constructor
  · intro emsg ecode hget
    unfold processMed
    rw [hname]
    dsimp only
    unfold make_fdb_request
    rw [hget]
    rfl
  · intro hget
    unfold processMed
    rw [hname]
    dsimp only
    unfold make_fdb_request
    rw [hget]
    rfl

/-- C4 witness: the amended claim evaluated at a connection-failing
collaborator. -/
theorem c4_witness :
    processMed envFail "t0" "id" "sec" (Medication.mk "Cisplatin" "50mg").toJson =
      .ok (none,
        [.fdb "PrescribableDrugs" (withCallMeta (searchParamsFor (.str "Cisplatin")) "t0")]) :=
  (c4_failure_and_nomatch_omit_entry envFail "t0" "id" "sec"
    (Medication.mk "Cisplatin" "50mg").toJson (.str "Cisplatin") rfl).1
    "ConnectionError: boom" none rfl

/-- C4 counterexample: under a collaborator whose search raises, the
medication name is absent from the result mapping (the mapping is empty) —
there is no entry with a PartialFailure status, refuting the claim that an
entry is recorded. -/
theorem c4_counterexample :
    validate_regimen_with_fdb envFail "t0" "id" "sec" rCis.toJson =
      .ok ([], [.fdb "PrescribableDrugs" (withCallMeta (searchParamsFor (.str "Cisplatin")) "t0")]) ∧
    (day1MedsOf rCis).map Medication.name = ["Cisplatin"] :=
  ⟨rfl, rfl⟩

/-- C5: for a medication whose search resolved to an item, a failure of its
interactions call or of its dosing call still yields an entry carrying the
resolved search result (drug_info) and every earlier successful field — a
failing interactions call degrades only that field to the empty object
(first conjunct), and a failing dosing call leaves the successful
interactions data in place and degrades only the dosing field (second
conjunct); moreover the outcome for any medication depends only on the
collaborator responses to its own calls, so such a failure leaves every
other medication's enrichment outcome unchanged (per-drug independence,
third conjunct). -/
theorem c5_search_result_retained_and_independence
    (env : FdbEnv) (now cid cs : String) (med nameJ item : Json)
    (restItems : List Json) (drugId : Json)
    (hname : pyGetItem med "name" = .ok nameJ)
    (hsearch : env.get "PrescribableDrugs" (withCallMeta (searchParamsFor nameJ) now)
        (authHeader cid cs) = .resp 200 (some (.obj [("Items", .arr (item :: restItems))])))
    (hid : pyGetItem item "PrescribableDrugID" = .ok drugId) :
    (∀ emsg ecode,
      env.get (interactionsEndpoint drugId) (withCallMeta [] now)
          (authHeader cid cs) = .exn emsg ecode →
      ∃ ddata, processMed env now cid cs med =
        .ok (some (nameJ, .obj [("drug_info", item), ("interactions", .obj []),
                                ("dosing", ddata)]),
             [.fdb "PrescribableDrugs" (withCallMeta (searchParamsFor nameJ) now),
              .fdb (interactionsEndpoint drugId) (withCallMeta [] now),
              .fdb (doseRecordsEndpoint drugId) (withCallMeta [] now)])) ∧
    (∀ ibody emsg ecode,
      env.get (interactionsEndpoint drugId) (withCallMeta [] now)
          (authHeader cid cs) = .resp 200 (some ibody) →
      env.get (doseRecordsEndpoint drugId) (withCallMeta [] now)
          (authHeader cid cs) = .exn emsg ecode →
      processMed env now cid cs med =
        .ok (some (nameJ, .obj [("drug_info", item), ("interactions", ibody),
                                ("dosing", .obj [])]),
             [.fdb "PrescribableDrugs" (withCallMeta (searchParamsFor nameJ) now),
              .fdb (interactionsEndpoint drugId) (withCallMeta [] now),
              .fdb (doseRecordsEndpoint drugId) (withCallMeta [] now)])) ∧
    ∀ (env2 : FdbEnv) (med2 : Json) (out2 : Option (Json × Json) × List Work),
      processMed env now cid cs med2 = .ok out2 →
      (∀ ep ps, Work.fdb ep ps ∈ out2.2 →
        env2.get ep ps (authHeader cid cs) = env.get ep ps (authHeader cid cs)) →
      processMed env2 now cid cs med2 = .ok out2 := by
  have hmk : make_fdb_request env now "PrescribableDrugs" cid cs (searchParamsFor nameJ) =
      .obj [("status", .str "success"),
            ("data", .obj [("Items", .arr (item :: restItems))]),
            ("status_code", .num 200)] := by
    unfold make_fdb_request
    rw [hsearch]
    rfl
  have hres : resolvedItem
      (make_fdb_request env now "PrescribableDrugs" cid cs (searchParamsFor nameJ)) =
      .ok (some item) := by
    rw [hmk]
    rfl
  refine ⟨?_, ?_, ?_⟩
  · intro emsg ecode hifail
    have hmi : pyGetDefault
        (make_fdb_request env now (interactionsEndpoint drugId) cid cs [])
        "data" (.obj []) = .ok (.obj []) := by
      unfold make_fdb_request
      rw [hifail]
      rfl
    obtain ⟨dd, hdd⟩ := make_data_default env now (doseRecordsEndpoint drugId) cid cs []
    refine ⟨dd, ?_⟩
    unfold processMed
    rw [hname]
    dsimp only
    simp only [hres, hid, hmi, hdd]
    rfl
  · intro ibody emsg ecode hiok hdfail
    have hmi : pyGetDefault
        (make_fdb_request env now (interactionsEndpoint drugId) cid cs [])
        "data" (.obj []) = .ok ibody := by
      unfold make_fdb_request
      rw [hiok]
      rfl
    have hmd : pyGetDefault
        (make_fdb_request env now (doseRecordsEndpoint drugId) cid cs [])
        "data" (.obj []) = .ok (.obj []) := by
      unfold make_fdb_request
      rw [hdfail]
      rfl
    unfold processMed
    rw [hname]
    dsimp only
    simp only [hres, hid, hmi, hmd]
    rfl
  · exact fun env2 med2 out2 h2 hag =>
      processMed_local env env2 now cid cs med2 out2 h2 hag

end ChemoFdb


namespace ChemoFdb

/-- C5 witness: the claim evaluated at a collaborator whose interactions call
for the resolved drug id 7 times out (first conjunct), at a collaborator
whose dosing call times out while interactions succeeded — the entry keeps
the successful interactions body (second conjunct) — and the independence
conclusion at the first collaborator (third conjunct). -/
theorem c5_witness :
    (∃ ddata, processMed envInterFail "t0" "id" "sec" (Medication.mk "Cisplatin" "50mg").toJson =
      .ok (some (.str "Cisplatin",
             .obj [("drug_info", .obj [("PrescribableDrugID", .str "7")]),
                   ("interactions", .obj []), ("dosing", ddata)]),
           [.fdb "PrescribableDrugs" (withCallMeta (searchParamsFor (.str "Cisplatin")) "t0"),
            .fdb (interactionsEndpoint (.str "7")) (withCallMeta [] "t0"),
            .fdb (doseRecordsEndpoint (.str "7")) (withCallMeta [] "t0")])) ∧
    (processMed envDoseFail "t0" "id" "sec" (Medication.mk "Cisplatin" "50mg").toJson =
      .ok (some (.str "Cisplatin",
             .obj [("drug_info", .obj [("PrescribableDrugID", .str "7")]),
                   ("interactions", .obj [("ok", .bool true)]), ("dosing", .obj [])]),
           [.fdb "PrescribableDrugs" (withCallMeta (searchParamsFor (.str "Cisplatin")) "t0"),
            .fdb (interactionsEndpoint (.str "7")) (withCallMeta [] "t0"),
            .fdb (doseRecordsEndpoint (.str "7")) (withCallMeta [] "t0")])) ∧
    ∀ (env2 : FdbEnv) (med2 : Json) (out2 : Option (Json × Json) × List Work),
      processMed envInterFail "t0" "id" "sec" med2 = .ok out2 →
      (∀ ep ps, Work.fdb ep ps ∈ out2.2 →
        env2.get ep ps (authHeader "id" "sec") = envInterFail.get ep ps (authHeader "id" "sec")) →
      processMed env2 "t0" "id" "sec" med2 = .ok out2 :=
  ⟨(c5_search_result_retained_and_independence envInterFail "t0" "id" "sec"
      (Medication.mk "Cisplatin" "50mg").toJson (.str "Cisplatin")
      (.obj [("PrescribableDrugID", .str "7")]) [] (.str "7")
      rfl rfl rfl).1 "ReadTimeout" none rfl,
   (c5_search_result_retained_and_independence envDoseFail "t0" "id" "sec"
      (Medication.mk "Cisplatin" "50mg").toJson (.str "Cisplatin")
      (.obj [("PrescribableDrugID", .str "7")]) [] (.str "7")
      rfl rfl rfl).2.1 (.obj [("ok", .bool true)]) "ReadTimeout" none rfl rfl,
   (c5_search_result_retained_and_independence envInterFail "t0" "id" "sec"
      (Medication.mk "Cisplatin" "50mg").toJson (.str "Cisplatin")
      (.obj [("PrescribableDrugID", .str "7")]) [] (.str "7")
      rfl rfl rfl).2.2⟩

/-- C6 (amended): a model reply that is not valid JSON leaves the document
without any stored record and its raw text is displayed verbatim; a reply
that is valid JSON is stored as the document's record regardless of whether
it has the mandatory regimen structure — no schema validation or repair is
performed at the parse boundary. -/
theorem c6_parse_failure_handling
    (parseJson : String → Option Json) (complete : String → String)
    (env : FdbEnv) (now cid cs docName docText : String) (S : OrchState)
    (hnew : alookup S.json_outputs docName = none) (htext : docText ≠ "") :
    (parseJson (complete (extractionPrompt docText)) = none →
      processDoc parseJson complete env now cid cs docName docText S =
        ⟨S, [.completion (extractionPrompt docText)],
         [complete (extractionPrompt docText)], none⟩) ∧
    ∀ j, parseJson (complete (extractionPrompt docText)) = some j →
      (processDoc parseJson complete env now cid cs docName docText S).state.json_outputs =
        alistSetS S.json_outputs docName j := by
  constructor
  · intro hp
    simp [processDoc, hnew, htext, hp]
  · intro j hp
    by_cases hc : cid ≠ "" ∧ cs ≠ ""
    · cases hv : validate_regimen_with_fdb env now cid cs j with
      | error e => simp [processDoc, hnew, htext, hp, hc, hv]
      | ok rt =>
        obtain ⟨res2, ws2⟩ := rt
        simp [processDoc, hnew, htext, hp, hc, hv]
    · simp [processDoc, hnew, htext, hp, hc]

/-- C6 witness: the amended claim evaluated at an always-failing parse on a
fresh document. -/
theorem c6_witness :
    (parse0 (complete0 (extractionPrompt "T")) = none →
      processDoc parse0 complete0 envOK "t0" "" "" "a.pdf" "T" ⟨[], []⟩ =
        ⟨⟨[], []⟩, [.completion (extractionPrompt "T")],
         [complete0 (extractionPrompt "T")], none⟩) ∧
    ∀ j, parse0 (complete0 (extractionPrompt "T")) = some j →
      (processDoc parse0 complete0 envOK "t0" "" "" "a.pdf" "T" ⟨[], []⟩).state.json_outputs =
        alistSetS ([] : List (String × Json)) "a.pdf" j :=
  c6_parse_failure_handling parse0 complete0 envOK "t0" "" "" "a.pdf" "T" ⟨[], []⟩
    rfl (by decide)

/-- C6 counterexample: a reply parsing to the empty JSON object — valid JSON
with none of the mandatory phases/cycle/medicationsByDay structure — is
stored as the document's record (json_outputs gains the entry), refuting the
claim that such a document is recorded as ParseFailed with no Regimen record
stored. -/
theorem c6_counterexample :
    processDoc parseObj complete0 envOK "t0" "" "" "a.pdf" "T" ⟨[], []⟩ =
      ⟨⟨[("a.pdf", .obj [])], []⟩, [.completion (extractionPrompt "T")], [], none⟩ ∧
    pyInKey "phase1" (.obj []) = .ok false ∧
    pyInKey "phases" (.obj []) = .ok false :=
  ⟨rfl, rfl, rfl⟩

/-- C7 (amended): a document whose parsed output is already stored (present
in json_outputs) is skipped entirely on a re-run - no extraction, completion
or enrichment work, no display, and the stored state is returned identical;
failed documents are not tracked in json_outputs and are reprocessed. -/
theorem c7_stored_documents_skipped
    (parseJson : String → Option Json) (complete : String → String)
    (env : FdbEnv) (now cid cs docName docText : String) (S : OrchState) (data : Json)
    (h : alookup S.json_outputs docName = some data) :
    processDoc parseJson complete env now cid cs docName docText S = ⟨S, [], [], none⟩ := by
  simp [processDoc, h]

/-- C7 witness: the amended claim evaluated on a state already holding a
record for the document. -/
theorem c7_witness :
    processDoc parse0 complete0 envOK "t0" "" "" "a.pdf" "T"
      ⟨[("a.pdf", .obj [])], []⟩ = ⟨⟨[("a.pdf", .obj [])], []⟩, [], [], none⟩ :=
  c7_stored_documents_skipped parse0 complete0 envOK "t0" "" "" "a.pdf" "T"
    ⟨[("a.pdf", .obj [])], []⟩ (.obj []) rfl

/-- C7 counterexample: a document whose reply fails to parse reaches the
terminal ParseFailed outcome but leaves no stored record, so a re-run of the
pipeline (same call on the unchanged state, second conjunct) performs the
completion work again — refuting the claim that re-running a document in any
terminal state performs no extraction/completion work. -/
theorem c7_counterexample :
    processDoc parse0 complete0 envOK "t0" "" "" "a.pdf" "T" ⟨[], []⟩ =
      ⟨⟨[], []⟩, [.completion (extractionPrompt "T")], ["not json"], none⟩ ∧
    processDoc parse0 complete0 envOK "t0" "" "" "a.pdf" "T"
        (processDoc parse0 complete0 envOK "t0" "" "" "a.pdf" "T" ⟨[], []⟩).state =
      ⟨⟨[], []⟩, [.completion (extractionPrompt "T")], ["not json"], none⟩ :=
  ⟨rfl, rfl⟩

/-- C8: when either drug-knowledge credential is empty, enrichment is skipped
as a whole — the work performed contains no FDB call at all, fdb_validation
is untouched — and the document still completes with its extracted record
stored in json_outputs. -/
theorem c8_no_credentials_skip_enrichment
    (parseJson : String → Option Json) (complete : String → String)
    (env : FdbEnv) (now cid cs docName docText : String) (S : OrchState) (j : Json)
    (hnew : alookup S.json_outputs docName = none) (htext : docText ≠ "")
    (hparse : parseJson (complete (extractionPrompt docText)) = some j)
    (hcred : cid = "" ∨ cs = "") :
    processDoc parseJson complete env now cid cs docName docText S =
      ⟨⟨alistSetS S.json_outputs docName j, S.fdb_validation⟩,
       [.completion (extractionPrompt docText)], [], none⟩ ∧
    ∀ ep ps, Work.fdb ep ps ∉
      (processDoc parseJson complete env now cid cs docName docText S).work := by
  have hc : ¬(cid ≠ "" ∧ cs ≠ "") := by
    rcases hcred with h | h <;> simp [h]
  have heq : processDoc parseJson complete env now cid cs docName docText S =
      ⟨⟨alistSetS S.json_outputs docName j, S.fdb_validation⟩,
       [.completion (extractionPrompt docText)], [], none⟩ := by
    simp [processDoc, hnew, htext, hparse, hc]
  refine ⟨heq, ?_⟩
  rw [heq]
  intro ep ps
  simp

/-- C8 witness: the claim evaluated with empty credentials on a fresh
document with a structureless but valid JSON reply. -/
theorem c8_witness :
    processDoc parseObj complete0 envOK "t0" "" "sec" "a.pdf" "T" ⟨[], []⟩ =
      ⟨⟨alistSetS ([] : List (String × Json)) "a.pdf" (.obj []), []⟩,
       [.completion (extractionPrompt "T")], [], none⟩ ∧
    ∀ ep ps, Work.fdb ep ps ∉
      (processDoc parseObj complete0 envOK "t0" "" "sec" "a.pdf" "T" ⟨[], []⟩).work :=
  c8_no_credentials_skip_enrichment parseObj complete0 envOK "t0" "" "sec" "a.pdf" "T"
    ⟨[], []⟩ (.obj []) rfl (by decide) rfl (Or.inl rfl)

/-- C9 (amended): a regimen whose model output omits the cycle duration gets
the default of 28 days, and — provided day 1 is present in the medications
mapping — the calendar renders entries for exactly days 1 through 28 in
order. -/
theorem c9_duration_defaults_to_28
    (r : Regimen) (p : Phase) (ds : DaySchedule)
    (hp : r.phase1 = some p) (hdur : p.cycle.duration = none)
    (hday1 : alookup p.cycle.medications "day1" = some ds) :
    cycleLengthOf p.cycle.toJson = .ok 28 ∧
    ∃ L, renderCalendar r.toJson = .ok L ∧ L.map Prod.fst = range1 28 := by
  have hlen := cycleLength_default p.cycle hdur
  refine ⟨hlen, ?_⟩
  have hcal : renderCalendar r.toJson = calendarLoop p.cycle.toJson (range1 28) := by
    rw [renderCalendar_toJson r p hp, hlen]
  rw [hcal]
  exact calendarLoop_ok p.cycle.toJson _ (renderDay_encoded p.cycle ds hday1) (range1 28)

/-- C9 witness: the amended claim evaluated on the duration-less one-drug
regimen. -/
theorem c9_witness :
    cycleLengthOf cyCis.toJson = .ok 28 ∧
    ∃ L, renderCalendar rCis.toJson = .ok L ∧ L.map Prod.fst = range1 28 :=
  c9_duration_defaults_to_28 rCis ⟨cyCis⟩ dsCis rfl rfl rfl

/-- C9 counterexample: for a regimen that omits the cycle duration and has no
day-1 key in its medications mapping, the calendar rendering raises KeyError
instead of covering days 1 through 28 — refuting the claim for such
regimens. -/
theorem c9_counterexample :
    renderCalendar rNoDay1.toJson = .error "KeyError: day1" ∧
    (match rNoDay1.phase1 with
     | some p => p.cycle.duration
     | none => some ⟨none⟩) = none :=
  ⟨rfl, rfl⟩

/-- C10: for every collaborator behavior, endpoint, credential pair and
parameter list, make_fdb_request returns a status dictionary whose status
field is either "success" — with the parsed response data and the status
code — or "error" with the exception message; no request-level exception
escapes the function. -/
theorem c10_status_dictionary
    (env : FdbEnv) (now endpoint cid cs : String) (params : List (String × String)) :
    (pyGetItem (make_fdb_request env now endpoint cid cs params) "status" =
        .ok (.str "success") ∧
      (∃ d, pyGetItem (make_fdb_request env now endpoint cid cs params) "data" = .ok d) ∧
      ∃ n, pyGetItem (make_fdb_request env now endpoint cid cs params) "status_code" =
        .ok (.num n)) ∨
    (pyGetItem (make_fdb_request env now endpoint cid cs params) "status" =
        .ok (.str "error") ∧
      ∃ m, pyGetItem (make_fdb_request env now endpoint cid cs params) "message" =
        .ok (.str m)) := by
  unfold make_fdb_request
  cases env.get endpoint (withCallMeta params now) (authHeader cid cs) with
  | exn m c => exact Or.inr ⟨rfl, m, rfl⟩
  | resp sc body =>
    dsimp only
    by_cases h : 400 ≤ sc ∧ sc < 600
    · rw [if_pos h]
      exact Or.inr ⟨rfl, _, rfl⟩
    · rw [if_neg h]
      cases body with
      | none => exact Or.inr ⟨rfl, _, rfl⟩
      | some b => exact Or.inl ⟨rfl, ⟨b, rfl⟩, ⟨Int.ofNat sc, rfl⟩⟩

end ChemoFdb
